import Mathlib

/-!
Shallow embedding of `app.py` of the order-cancellation prediction service.

The repository exposes one Flask endpoint, `POST /predecir`
(`predecir_cancelacion` in `app.py`).  The handler:
  1. returns 503 when the module-level classifier handle `modelo_cargado`
     is `None`;
  2. returns 400 when `request.get_json()` yields no data or a falsy value
     (in particular the empty object);
  3. returns 400 listing the missing numeric fields when any field of
     `CARACTERISTICAS_ESPERADAS` is absent;
  4. returns 400 listing the missing categorical fields when any field of
     `CARACTERISTICAS_CATEGORICAS` is absent;
  5. otherwise builds a single-row table over the eight schema fields,
     calls `predict` and `predict_proba`, and returns 200 with the label
     text, the class, and the probability rounded to four decimals;
     `ValueError`/`TypeError` during inference becomes 400 with the error
     detail and any other exception becomes 500 with a generic message.

JSON scalars are modelled by `JsonVal` (rationals stand for Python
numbers), request bodies by association lists with first-match lookup
(Python dict keys are unique, so this is faithful), and the external
classifier by a structure of two fallible functions.
-/

namespace PrediccionCancelados

/-- A JSON scalar value appearing in request or response bodies: a number
(Python ints/floats modelled as rationals), a string, or a list of strings
(the `caracteristicas_faltantes` array). -/
inductive JsonVal where
  | num (q : ℚ)
  | str (s : String)
  | strList (xs : List String)
deriving DecidableEq, Repr

/-- A JSON object / Python dict, as an association list with first-match
lookup semantics. -/
abbrev Dict := List (String × JsonVal)

/-- Python `key in data` on a dict. -/
def dictContains (d : Dict) (k : String) : Bool :=
  (List.lookup k d).isSome

/-- Python `data[key]`; only evaluated on keys already validated to be
present, so the default branch is never reached by the handler. -/
def dictGet (d : Dict) (k : String) : JsonVal :=
  (List.lookup k d).getD (JsonVal.str "")

/-- An exception escaping the classifier's inference routines, as caught by
the handler's `except` clauses: `ValueError`/`TypeError` versus anything
else.  The string models `str(e)`. -/
inductive PyError where
  | valueOrType (msg : String)
  | other (msg : String)
deriving DecidableEq, Repr

/-- The opaque classifier handle: `predict` yields the first row's class
(`int(prediccion_clase[0])`) and `predict_proba` the first row's
positive-class probability (`prediccion_probabilidades[0][1]`); either call
may raise. -/
structure Classifier where
  predict : Dict → Except PyError ℤ
  predict_proba : Dict → Except PyError ℚ

/-- An HTTP response: status code plus JSON object body. -/
structure HttpResponse where
  status : ℕ
  body : Dict
deriving DecidableEq, Repr

/-- The six required numeric feature names, in schema order
(`CARACTERISTICAS_ESPERADAS` in `app.py`). -/
def CARACTERISTICAS_ESPERADAS : List String :=
  ["num__total_a_pagar",
   "num__total_cantidad_productos",
   "num__total_productos_distintos",
   "num__stock_minimo_del_pedido",
   "num__total_categorias_distintas",
   "num__tasa_cancelaciones_historicas_cliente"]

/-- The two required categorical feature names, in schema order
(`CARACTERISTICAS_CATEGORICAS` in `app.py`). -/
def CARACTERISTICAS_CATEGORICAS : List String :=
  ["tipo_cliente", "canal_pedido"]

def errorModeloNoDisponible : String :=
  "El modelo de predicción no está disponible. Revisa los logs del servidor."

def errorSinDatos : String :=
  "No se recibieron datos en la petición. Se esperaba un JSON."

def errorFaltanNumericas : String :=
  "Petición inválida. Faltan características numéricas requeridas."

def errorFaltanCategoricas : String :=
  "Petición inválida. Faltan características categóricas requeridas."

def errorDatosEntrada : String :=
  "Error en los datos de entrada. Asegúrate de que los valores numéricos sean correctos y las categóricas sean válidas. Detalle: "

def errorInterno : String :=
  "Ocurrió un error interno en el servidor."

/-- `round(x, 4)` of the handler, over rationals: round to four decimal
digits. -/
def round4 (q : ℚ) : ℚ :=
  ((round (q * 10000) : ℤ) : ℚ) / 10000

/-- The single-row feature table of the `try` block:
`{key: [data[key]] for key in CARACTERISTICAS_ESPERADAS + CARACTERISTICAS_CATEGORICAS}`.
One row, so each column holds the single value `data[key]`. -/
def datos_para_predecir (esperadas categoricas : List String) (data : Dict) : Dict :=
  (esperadas ++ categoricas).map (fun key => (key, dictGet data key))

/-- The label text of line 105 of `app.py`. -/
def etiqueta (resultado_clase : ℤ) : String :=
  if resultado_clase = 1 then "Pedido probablemente Cancelado"
  else "Pedido probablemente No Cancelado"

/-- The two `except` clauses of the handler: `ValueError`/`TypeError`
becomes 400 with the detail appended, anything else becomes 500 with the
generic message. -/
def respuestaError : PyError → HttpResponse
  | PyError.valueOrType e => ⟨400, [("error", JsonVal.str (errorDatosEntrada ++ e))]⟩
  | PyError.other _ => ⟨500, [("error", JsonVal.str errorInterno)]⟩

/-- The body of `predecir_cancelacion`, generic over the two module-level
schema lists.  `data = none` models `request.get_json()` returning `None`;
`not data` is `none` or the empty dict.  The nested categorical check
`if CARACTERISTICAS_CATEGORICAS: if not all(...)` is flattened into the
conjunction of the two tests. -/
def predecir_core (esperadas categoricas : List String)
    (modelo : Option Classifier) (data : Option Dict) : HttpResponse :=
  match modelo with
  | none => ⟨503, [("error", JsonVal.str errorModeloNoDisponible)]⟩
  | some modelo_cargado =>
    match data with
    | none => ⟨400, [("error", JsonVal.str errorSinDatos)]⟩
    | some d =>
      if d.isEmpty then ⟨400, [("error", JsonVal.str errorSinDatos)]⟩
      else if !(esperadas.all fun f => dictContains d f) then
        ⟨400, [("error", JsonVal.str errorFaltanNumericas),
               ("caracteristicas_faltantes",
                JsonVal.strList (esperadas.filter fun f => !dictContains d f))]⟩
      else if !categoricas.isEmpty && !(categoricas.all fun f => dictContains d f) then
        ⟨400, [("error", JsonVal.str errorFaltanCategoricas),
               ("caracteristicas_faltantes",
                JsonVal.strList (categoricas.filter fun f => !dictContains d f))]⟩
      else
        match modelo_cargado.predict (datos_para_predecir esperadas categoricas d) with
        | Except.error e => respuestaError e
        | Except.ok pred0 =>
          match modelo_cargado.predict_proba (datos_para_predecir esperadas categoricas d) with
          | Except.error e => respuestaError e
          | Except.ok prob1 =>
            ⟨200, [("prediccion_texto", JsonVal.str (etiqueta pred0)),
                   ("prediccion_clase", JsonVal.num (pred0 : ℚ)),
                   ("probabilidad_de_cancelacion", JsonVal.num (round4 prob1))]⟩

/-- `POST /predecir` with the module-level schema constants. -/
def predecir_cancelacion (modelo : Option Classifier) (data : Option Dict) : HttpResponse :=
  predecir_core CARACTERISTICAS_ESPERADAS CARACTERISTICAS_CATEGORICAS modelo data

/-- A concrete classifier used to instantiate theorems at explicit inputs
(its behaviour is irrelevant on validation-failure paths). -/
def trivialModel : Classifier :=
  ⟨fun _ => Except.ok 0, fun _ => Except.ok (1/2)⟩

/-- The process-wide state visible to the handler: the classifier handle
and the two schema lists, all set at startup. -/
structure ServerState where
  modelo_cargado : Option Classifier
  esperadas : List String
  categoricas : List String

/-- One request handled against the process state: the handler reads the
state and returns the state it was given — `predecir_cancelacion` contains
no assignment to any module-level name on any control path. -/
def handle (s : ServerState) (data : Option Dict) : HttpResponse × ServerState :=
  (predecir_core s.esperadas s.categoricas s.modelo_cargado data, s)

/-- A sequence of requests handled in order, threading the process state. -/
def run (s : ServerState) : List (Option Dict) → List HttpResponse
  | [] => []
  | r :: rs => (handle s r).1 :: run (handle s r).2 rs

/-- The spec's v2 example request, used to instantiate theorems. -/
def dCompleta : Dict :=
  [("num__total_a_pagar", JsonVal.num 3375),
   ("num__total_cantidad_productos", JsonVal.num 9),
   ("num__total_productos_distintos", JsonVal.num 3),
   ("num__stock_minimo_del_pedido", JsonVal.num 0),
   ("num__total_categorias_distintas", JsonVal.num 3),
   ("num__tasa_cancelaciones_historicas_cliente", JsonVal.num 0),
   ("tipo_cliente", JsonVal.str "NoCliente"),
   ("canal_pedido", JsonVal.str "Presencial")]

theorem isEmpty_false_of_ne_nil (d : Dict) (h : d ≠ []) : d.isEmpty = false := by
  cases d with
  | nil => exact absurd rfl h
  | cons a as => rfl

theorem lookup_map_self (f : String → JsonVal) (ks : List String) (k : String)
    (hk : k ∈ ks) :
    List.lookup k (ks.map fun x => (x, f x)) = some (f k) := by
  induction ks with
  | nil => cases hk
  | cons a as ih =>
    by_cases hka : k = a
    · subst hka
      simp [List.lookup]
    · have hne : (k == a) = false := by simp [hka]
      have hmem : k ∈ as := by
        rcases List.mem_cons.mp hk with h | h
        · exact absurd h hka
        · exact h
      simp [List.lookup, hne, ih hmem]

theorem all_agree (p q : String → Bool) (ks : List String)
    (h : ∀ k ∈ ks, p k = q k) : ks.all p = ks.all q := by
  induction ks with
  | nil => rfl
  | cons a as ih =>
    simp only [List.all_cons]
    rw [h a (List.mem_cons_self a as), ih fun k hk => h k (List.mem_cons_of_mem a hk)]

theorem filter_agree (p q : String → Bool) (ks : List String)
    (h : ∀ k ∈ ks, p k = q k) : ks.filter p = ks.filter q := by
  induction ks with
  | nil => rfl
  | cons a as ih =>
    simp only [List.filter_cons]
    rw [h a (List.mem_cons_self a as), ih fun k hk => h k (List.mem_cons_of_mem a hk)]

theorem map_agree (f g : String → String × JsonVal) (ks : List String)
    (h : ∀ k ∈ ks, f k = g k) : ks.map f = ks.map g := by
  induction ks with
  | nil => rfl
  | cons a as ih =>
    simp only [List.map_cons]
    rw [h a (List.mem_cons_self a as), ih fun k hk => h k (List.mem_cons_of_mem a hk)]

/-- C2: if the classifier handle is the unavailable sentinel, `POST
/predecir` answers 503 with an `error` field for every request body
whatsoever — the response is a constant independent of the body, so the
check precedes any reading or validation of the body. -/
theorem modelo_no_disponible_503 (data : Option Dict) :
    predecir_cancelacion none data =
      ⟨503, [("error", JsonVal.str errorModeloNoDisponible)]⟩ := rfl

/-- C4 counterexample: with a loaded model, the empty JSON object is
rejected by the emptiness check, so the 400 response carries no
`caracteristicas_faltantes` field at all — not the full six-field list the
claim asserts. -/
theorem empty_body_counterexample :
    (predecir_cancelacion (some trivialModel) (some [])).status = 400 ∧
    List.lookup "caracteristicas_faltantes"
        (predecir_cancelacion (some trivialModel) (some [])).body = none ∧
    List.lookup "caracteristicas_faltantes"
        (predecir_cancelacion (some trivialModel) (some [])).body ≠
      some (JsonVal.strList CARACTERISTICAS_ESPERADAS) := by decide

/-- C4 amended: with a loaded model, the empty JSON object `{}` receives
400 whose body is exactly the no-data `error` message, with no
`caracteristicas_faltantes` field (the falsy-body check fires before field
validation). -/
theorem empty_body_rejected (c : Classifier) :
    predecir_cancelacion (some c) (some []) =
      ⟨400, [("error", JsonVal.str errorSinDatos)]⟩ ∧
    List.lookup "caracteristicas_faltantes"
        (predecir_cancelacion (some c) (some [])).body = none :=
  ⟨rfl, rfl⟩

/-- C1 counterexample: for the non-empty body `{"tipo_cliente":
"NoCliente"}` (missing all six numeric fields and the categorical
`canal_pedido`), the 400 response lists only the six missing numeric
fields, not the full schema-minus-present set the claim asserts. -/
theorem mixed_missing_counterexample :
    (predecir_cancelacion (some trivialModel)
        (some [("tipo_cliente", JsonVal.str "NoCliente")])).status = 400 ∧
    List.lookup "caracteristicas_faltantes"
        (predecir_cancelacion (some trivialModel)
          (some [("tipo_cliente", JsonVal.str "NoCliente")])).body =
      some (JsonVal.strList CARACTERISTICAS_ESPERADAS) ∧
    JsonVal.strList CARACTERISTICAS_ESPERADAS ≠
      JsonVal.strList
        ((CARACTERISTICAS_ESPERADAS ++ CARACTERISTICAS_CATEGORICAS).filter fun f =>
          !dictContains [("tipo_cliente", JsonVal.str "NoCliente")] f) := by decide

/-- C1 amended: for a non-empty body, if any numeric field is missing the
response is 400 and `caracteristicas_faltantes` is exactly the missing
numeric fields in schema order; if all numeric fields are present and a
categorical field is missing, it is 400 with exactly the missing
categorical fields in schema order. -/
theorem missing_fields_grouped (m : Classifier) (d : Dict) (hne : d ≠ []) :
    ((CARACTERISTICAS_ESPERADAS.all fun f => dictContains d f) = false →
      predecir_cancelacion (some m) (some d) =
        ⟨400, [("error", JsonVal.str errorFaltanNumericas),
               ("caracteristicas_faltantes",
                JsonVal.strList
                  (CARACTERISTICAS_ESPERADAS.filter fun f => !dictContains d f))]⟩) ∧
    ((CARACTERISTICAS_ESPERADAS.all fun f => dictContains d f) = true →
      (CARACTERISTICAS_CATEGORICAS.all fun f => dictContains d f) = false →
      predecir_cancelacion (some m) (some d) =
        ⟨400, [("error", JsonVal.str errorFaltanCategoricas),
               ("caracteristicas_faltantes",
                JsonVal.strList
                  (CARACTERISTICAS_CATEGORICAS.filter fun f => !dictContains d f))]⟩) := by
  have hemp : d.isEmpty = false := isEmpty_false_of_ne_nil d hne
  constructor
  · intro hnum
    simp [predecir_cancelacion, predecir_core, hemp, hnum]
  · intro hnum hcat
    have hcne : CARACTERISTICAS_CATEGORICAS.isEmpty = false := rfl
    simp [predecir_cancelacion, predecir_core, hemp, hnum, hcat, hcne]

/-- Witness for C1's amended theorem at two concrete bodies: one missing
all numeric fields, one missing only `canal_pedido`. -/
theorem missing_fields_grouped_witness :
    predecir_cancelacion (some trivialModel)
        (some [("tipo_cliente", JsonVal.str "X")]) =
      ⟨400, [("error", JsonVal.str errorFaltanNumericas),
             ("caracteristicas_faltantes",
              JsonVal.strList
                (CARACTERISTICAS_ESPERADAS.filter fun f =>
                  !dictContains [("tipo_cliente", JsonVal.str "X")] f))]⟩ ∧
    predecir_cancelacion (some trivialModel) (some (dCompleta.take 7)) =
      ⟨400, [("error", JsonVal.str errorFaltanCategoricas),
             ("caracteristicas_faltantes",
              JsonVal.strList
                (CARACTERISTICAS_CATEGORICAS.filter fun f =>
                  !dictContains (dCompleta.take 7) f))]⟩ :=
  ⟨(missing_fields_grouped trivialModel _ (by decide)).1 (by decide),
   (missing_fields_grouped trivialModel _ (by decide)).2 (by decide) (by decide)⟩

/-- C5: for a request passing validation, a `ValueError`/`TypeError`
raised by either inference call yields 400 with the underlying detail
appended to the error message, and any other exception yields 500 with the
fixed generic message; the handler is total, so nothing propagates
uncaught. -/
theorem errores_inferencia (c : Classifier) (d : Dict) (e : PyError)
    (hne : d ≠ [])
    (hnum : (CARACTERISTICAS_ESPERADAS.all fun f => dictContains d f) = true)
    (hcat : (CARACTERISTICAS_CATEGORICAS.all fun f => dictContains d f) = true)
    (herr :
      c.predict (datos_para_predecir CARACTERISTICAS_ESPERADAS CARACTERISTICAS_CATEGORICAS d)
          = Except.error e ∨
      ∃ k, c.predict (datos_para_predecir CARACTERISTICAS_ESPERADAS CARACTERISTICAS_CATEGORICAS d)
            = Except.ok k ∧
        c.predict_proba (datos_para_predecir CARACTERISTICAS_ESPERADAS CARACTERISTICAS_CATEGORICAS d)
            = Except.error e) :
    predecir_cancelacion (some c) (some d) = respuestaError e ∧
    (∀ msg, e = PyError.valueOrType msg →
      respuestaError e = ⟨400, [("error", JsonVal.str (errorDatosEntrada ++ msg))]⟩) ∧
    (∀ msg, e = PyError.other msg →
      respuestaError e = ⟨500, [("error", JsonVal.str errorInterno)]⟩) := by
  have hemp : d.isEmpty = false := isEmpty_false_of_ne_nil d hne
  have hcne : CARACTERISTICAS_CATEGORICAS.isEmpty = false := rfl
  refine ⟨?_, ?_, ?_⟩
  · rcases herr with h | ⟨k, hk, hp⟩
    · simp [predecir_cancelacion, predecir_core, hemp, hnum, hcat, hcne, h]
    · simp [predecir_cancelacion, predecir_core, hemp, hnum, hcat, hcne, hk, hp]
  · rintro msg rfl
    rfl
  · rintro msg rfl
    rfl

/-- A classifier whose probability-estimation call raises a
`ValueError`/`TypeError`, as when a numeric column holds a string. -/
def errorModel : Classifier :=
  ⟨fun _ => Except.error (PyError.valueOrType "could not convert string to float"),
   fun _ => Except.error (PyError.valueOrType "could not convert string to float")⟩

/-- Witness for C5 at a concrete request and a concrete failing
classifier. -/
theorem errores_inferencia_witness :
    predecir_cancelacion (some errorModel) (some dCompleta) =
      respuestaError (PyError.valueOrType "could not convert string to float") ∧
    respuestaError (PyError.valueOrType "could not convert string to float") =
      ⟨400, [("error",
              JsonVal.str (errorDatosEntrada ++ "could not convert string to float"))]⟩ :=
  ⟨(errores_inferencia errorModel dCompleta _ (by decide) (by decide) (by decide)
      (Or.inl rfl)).1,
   (errores_inferencia errorModel dCompleta _ (by decide) (by decide) (by decide)
      (Or.inl rfl)).2.1 _ rfl⟩

/-- C6: for a validated request on which both inference calls succeed with
a binary class, the response is 200 and its body is exactly the three
fields `prediccion_texto`, `prediccion_clase` and
`probabilidad_de_cancelacion` (the probability rounded to four decimals),
the text being the cancelled message exactly when the class is 1 and the
not-cancelled message exactly when it is 0. -/
theorem respuesta_exitosa (c : Classifier) (d : Dict) (k : ℤ) (p : ℚ)
    (hne : d ≠ [])
    (hnum : (CARACTERISTICAS_ESPERADAS.all fun f => dictContains d f) = true)
    (hcat : (CARACTERISTICAS_CATEGORICAS.all fun f => dictContains d f) = true)
    (hk01 : k = 0 ∨ k = 1)
    (hpred :
      c.predict (datos_para_predecir CARACTERISTICAS_ESPERADAS CARACTERISTICAS_CATEGORICAS d)
        = Except.ok k)
    (hproba :
      c.predict_proba (datos_para_predecir CARACTERISTICAS_ESPERADAS CARACTERISTICAS_CATEGORICAS d)
        = Except.ok p) :
    predecir_cancelacion (some c) (some d) =
      ⟨200, [("prediccion_texto", JsonVal.str (etiqueta k)),
             ("prediccion_clase", JsonVal.num (k : ℚ)),
             ("probabilidad_de_cancelacion", JsonVal.num (round4 p))]⟩ ∧
    (etiqueta k = "Pedido probablemente Cancelado" ↔ k = 1) ∧
    (etiqueta k = "Pedido probablemente No Cancelado" ↔ k = 0) := by
  have hemp : d.isEmpty = false := isEmpty_false_of_ne_nil d hne
  have hcne : CARACTERISTICAS_CATEGORICAS.isEmpty = false := rfl
  refine ⟨?_, ?_, ?_⟩
  · simp [predecir_cancelacion, predecir_core, hemp, hnum, hcat, hcne, hpred, hproba]
  · rcases hk01 with rfl | rfl
    · simp only [etiqueta]
      norm_num
      decide
    · simp [etiqueta]
  · rcases hk01 with rfl | rfl
    · simp [etiqueta]
    · simp only [etiqueta]
      norm_num
      decide

/-- Witness for C6 at the spec's example request and a concrete
classifier. -/
theorem respuesta_exitosa_witness :
    predecir_cancelacion (some trivialModel) (some dCompleta) =
      ⟨200, [("prediccion_texto", JsonVal.str (etiqueta 0)),
             ("prediccion_clase", JsonVal.num ((0 : ℤ) : ℚ)),
             ("probabilidad_de_cancelacion", JsonVal.num (round4 (1/2)))]⟩ :=
  (respuesta_exitosa trivialModel dCompleta 0 (1/2) (by decide) (by decide) (by decide)
    (Or.inl rfl) rfl rfl).1

/-- C7: feature-vector assembly is the pure function
`datos_para_predecir`: its columns are exactly the schema fields in schema
order (numeric fields then categorical fields), and each column holds the
request's value for that field verbatim. -/
theorem datos_columnas_y_valores (d : Dict) :
    ((datos_para_predecir CARACTERISTICAS_ESPERADAS CARACTERISTICAS_CATEGORICAS d).map
        Prod.fst = CARACTERISTICAS_ESPERADAS ++ CARACTERISTICAS_CATEGORICAS) ∧
    (∀ k v, k ∈ CARACTERISTICAS_ESPERADAS ++ CARACTERISTICAS_CATEGORICAS →
      List.lookup k d = some v →
      List.lookup k
          (datos_para_predecir CARACTERISTICAS_ESPERADAS CARACTERISTICAS_CATEGORICAS d)
        = some v) := by
  constructor
  · have hfst : (Prod.fst ∘ fun key : String => (key, dictGet d key)) = fun k => k := rfl
    simp [datos_para_predecir, hfst]
  · intro k v hk hv
    have hmap := lookup_map_self (dictGet d)
      (CARACTERISTICAS_ESPERADAS ++ CARACTERISTICAS_CATEGORICAS) k hk
    rw [datos_para_predecir, hmap, dictGet, hv]
    rfl

/-- Witness for C7 at the spec's example request. -/
theorem datos_columnas_y_valores_witness :
    List.lookup "tipo_cliente"
        (datos_para_predecir CARACTERISTICAS_ESPERADAS CARACTERISTICAS_CATEGORICAS dCompleta)
      = some (JsonVal.str "NoCliente") :=
  (datos_columnas_y_valores dCompleta).2 "tipo_cliente" (JsonVal.str "NoCliente")
    (by decide) (by decide)

/-- C8 counterexample: the empty body and the body `{"campo_extra": 1}`
agree on every schema field (none is present in either), yet the handler
answers them with different bodies — the emptiness check fires only for
the first. -/
theorem campos_extra_counterexample :
    (∀ k ∈ CARACTERISTICAS_ESPERADAS ++ CARACTERISTICAS_CATEGORICAS,
      List.lookup k ([] : Dict) = List.lookup k [("campo_extra", JsonVal.num 1)]) ∧
    predecir_cancelacion (some trivialModel) (some []) ≠
      predecir_cancelacion (some trivialModel)
        (some [("campo_extra", JsonVal.num 1)]) := by decide

/-- C8 amended: for any two NON-EMPTY request bodies agreeing on every
schema field, the endpoint produces the same status and the same body —
extra non-schema keys are never read, validated or echoed. -/
theorem campos_extra_ignorados (m : Option Classifier) (d1 d2 : Dict)
    (h1 : d1 ≠ []) (h2 : d2 ≠ [])
    (hagree : ∀ k ∈ CARACTERISTICAS_ESPERADAS ++ CARACTERISTICAS_CATEGORICAS,
      List.lookup k d1 = List.lookup k d2) :
    predecir_cancelacion m (some d1) = predecir_cancelacion m (some d2) := by
  cases m with
  | none => rfl
  | some c =>
    have hcont : ∀ k ∈ CARACTERISTICAS_ESPERADAS ++ CARACTERISTICAS_CATEGORICAS,
        dictContains d1 k = dictContains d2 k := by
      intro k hk
      unfold dictContains
      rw [hagree k hk]
    have hget : ∀ k ∈ CARACTERISTICAS_ESPERADAS ++ CARACTERISTICAS_CATEGORICAS,
        dictGet d1 k = dictGet d2 k := by
      intro k hk
      unfold dictGet
      rw [hagree k hk]
    have hallE : (CARACTERISTICAS_ESPERADAS.all fun f => dictContains d1 f)
        = (CARACTERISTICAS_ESPERADAS.all fun f => dictContains d2 f) :=
      all_agree _ _ _ fun k hk => hcont k (List.mem_append.mpr (Or.inl hk))
    have hallC : (CARACTERISTICAS_CATEGORICAS.all fun f => dictContains d1 f)
        = (CARACTERISTICAS_CATEGORICAS.all fun f => dictContains d2 f) :=
      all_agree _ _ _ fun k hk => hcont k (List.mem_append.mpr (Or.inr hk))
    have hfilE : (CARACTERISTICAS_ESPERADAS.filter fun f => !dictContains d1 f)
        = (CARACTERISTICAS_ESPERADAS.filter fun f => !dictContains d2 f) :=
      filter_agree _ _ _ fun k hk => by
        rw [hcont k (List.mem_append.mpr (Or.inl hk))]
    have hfilC : (CARACTERISTICAS_CATEGORICAS.filter fun f => !dictContains d1 f)
        = (CARACTERISTICAS_CATEGORICAS.filter fun f => !dictContains d2 f) :=
      filter_agree _ _ _ fun k hk => by
        rw [hcont k (List.mem_append.mpr (Or.inr hk))]
    have hdatos : datos_para_predecir CARACTERISTICAS_ESPERADAS CARACTERISTICAS_CATEGORICAS d1
        = datos_para_predecir CARACTERISTICAS_ESPERADAS CARACTERISTICAS_CATEGORICAS d2 := by
      unfold datos_para_predecir
      exact map_agree _ _ _ fun k hk => by rw [hget k hk]
    have he1 : d1.isEmpty = false := isEmpty_false_of_ne_nil d1 h1
    have he2 : d2.isEmpty = false := isEmpty_false_of_ne_nil d2 h2
    simp only [predecir_cancelacion, predecir_core, he1, he2, hallE, hallC, hfilE,
      hfilC, hdatos]

/-- Witness for C8's amended theorem: the spec's example request with and
without an extra key gets the same response. -/
theorem campos_extra_ignorados_witness :
    predecir_cancelacion (some trivialModel) (some dCompleta) =
      predecir_cancelacion (some trivialModel)
        (some (dCompleta ++ [("campo_extra", JsonVal.num 7)])) :=
  campos_extra_ignorados (some trivialModel) dCompleta
    (dCompleta ++ [("campo_extra", JsonVal.num 7)]) (by decide) (by decide) (by decide)

/-- C9: the endpoint is deterministic and idempotent over the request
body: along any request sequence each response is a function of the
initial process state and that request's own body alone, so identical
bodies at any two positions receive identical responses. -/
theorem idempotencia_run (s : ServerState) (reqs : List (Option Dict)) :
    run s reqs = reqs.map (fun r => (handle s r).1) ∧
    (∀ (i j : ℕ) (r : Option Dict), reqs[i]? = some r → reqs[j]? = some r →
      (run s reqs)[i]? = (run s reqs)[j]?) := by
  have hmap : run s reqs = reqs.map (fun r => (handle s r).1) := by
    induction reqs with
    | nil => rfl
    | cons a as ih =>
      show (handle s a).1 :: run (handle s a).2 as = _
      rw [List.map_cons]
      exact congrArg _ ih
  refine ⟨hmap, ?_⟩
  intro i j r hi hj
  rw [hmap, List.getElem?_map, List.getElem?_map, hi, hj]

/-- A concrete startup state used to instantiate theorems. -/
def estadoEjemplo : ServerState :=
  ⟨some trivialModel, CARACTERISTICAS_ESPERADAS, CARACTERISTICAS_CATEGORICAS⟩

/-- Witness for C9: the same body sent twice in a row gets the same
response. -/
theorem idempotencia_run_witness :
    (run estadoEjemplo [some dCompleta, some dCompleta])[0]? =
      (run estadoEjemplo [some dCompleta, some dCompleta])[1]? :=
  (idempotencia_run estadoEjemplo [some dCompleta, some dCompleta]).2 0 1
    (some dCompleta) (by decide) (by decide)

/-- C10: every execution of the handler leaves the process-wide state
unchanged — the classifier handle and both schema lists after a request
are those before it, along every control path (all branches of
`predecir_core` included, since `handle` covers them all). -/
theorem estado_sin_cambios (s : ServerState) (data : Option Dict) :
    (handle s data).2.modelo_cargado = s.modelo_cargado ∧
    (handle s data).2.esperadas = s.esperadas ∧
    (handle s data).2.categoricas = s.categoricas :=
  ⟨rfl, rfl, rfl⟩

/-- Modelled from the spec: the threshold-override iterations (3 and 4) of
this repository are not under `src/` — only the variant-A file `app.py`
is.  Per the spec, variant B calls only the probability-estimation
routine, so the classifier handle of that variant carries just
`predict_proba`. -/
structure ProbClassifier where
  predict_proba : Dict → Except PyError ℚ

/-- Modelled from the spec: the variant-B handler — the same
unavailable-handle, empty-body and missing-field validation as
`predecir_core`, then `label = 1 if probability > threshold else 0`
against the unrounded probability, the classifier's own class-prediction
routine never being consulted; only the displayed probability is rounded
to four decimals. -/
def predecir_umbral (T : ℚ) (esperadas : List String)
    (modelo : Option ProbClassifier) (data : Option Dict) : HttpResponse :=
  match modelo with
  | none => ⟨503, [("error", JsonVal.str errorModeloNoDisponible)]⟩
  | some m =>
    match data with
    | none => ⟨400, [("error", JsonVal.str errorSinDatos)]⟩
    | some d =>
      if d.isEmpty then ⟨400, [("error", JsonVal.str errorSinDatos)]⟩
      else if !(esperadas.all fun f => dictContains d f) then
        ⟨400, [("error", JsonVal.str errorFaltanNumericas),
               ("caracteristicas_faltantes",
                JsonVal.strList (esperadas.filter fun f => !dictContains d f))]⟩
      else
        match m.predict_proba (datos_para_predecir esperadas [] d) with
        | Except.error e => respuestaError e
        | Except.ok prob =>
          ⟨200, [("prediccion_texto",
                  JsonVal.str (etiqueta (if T < prob then 1 else 0))),
                 ("prediccion_clase",
                  JsonVal.num (((if T < prob then 1 else 0) : ℤ) : ℚ)),
                 ("probabilidad_de_cancelacion", JsonVal.num (round4 prob))]⟩

/-- C3: in the threshold-override variant, for a fixed threshold `T` and a
valid request, the returned class is 1 exactly when the unrounded
positive-class probability is strictly greater than `T`, and a probability
equal to `T` yields class 0. -/
theorem umbral_clase_iff (T : ℚ) (esperadas : List String) (m : ProbClassifier)
    (d : Dict) (p : ℚ) (hne : d ≠ [])
    (hall : (esperadas.all fun f => dictContains d f) = true)
    (hp : m.predict_proba (datos_para_predecir esperadas [] d) = Except.ok p) :
    (List.lookup "prediccion_clase"
        (predecir_umbral T esperadas (some m) (some d)).body
      = some (JsonVal.num 1) ↔ T < p) ∧
    (p = T →
      List.lookup "prediccion_clase"
          (predecir_umbral T esperadas (some m) (some d)).body
        = some (JsonVal.num 0)) := by
  have hemp : d.isEmpty = false := isEmpty_false_of_ne_nil d hne
  have hbody : predecir_umbral T esperadas (some m) (some d) =
      ⟨200, [("prediccion_texto", JsonVal.str (etiqueta (if T < p then 1 else 0))),
             ("prediccion_clase", JsonVal.num (((if T < p then 1 else 0) : ℤ) : ℚ)),
             ("probabilidad_de_cancelacion", JsonVal.num (round4 p))]⟩ := by
    simp [predecir_umbral, hemp, hall, hp]
  rw [hbody]
  constructor
  · by_cases h : T < p
    · simp [List.lookup, h]
    · simp [List.lookup, h]
  · intro hpT
    have h : ¬ T < p := by
      rw [hpT]
      exact lt_irrefl T
    simp [List.lookup, h]

/-- A variant-B classifier handle returning probability 9/10. -/
def probaModel : ProbClassifier :=
  ⟨fun _ => Except.ok (9/10)⟩

/-- Witness for C3: threshold 0.8, probability 0.9, so class 1. -/
theorem umbral_clase_iff_witness :
    List.lookup "prediccion_clase"
        (predecir_umbral (4/5) CARACTERISTICAS_ESPERADAS (some probaModel)
          (some (dCompleta.take 6))).body
      = some (JsonVal.num 1) :=
  (umbral_clase_iff (4/5) CARACTERISTICAS_ESPERADAS probaModel (dCompleta.take 6)
      (9/10) (by decide) (by decide) rfl).1.mpr (by norm_num)

end PrediccionCancelados
